import Mathlib

/-!
A verification development for the execution core of the `boa` JavaScript
engine: the runtime environment stack (`src/boa_engine/src/environments/runtime.rs`),
the `eval` entry point (`src/boa_engine/src/builtins/eval/mod.rs`), and the
call/construct machinery (`src/boa_engine/src/vm/code_block.rs`).

The embedding is shallow: Rust data is translated to plain Lean structures,
garbage-collected shared handles (`Gc<...>`, `JsObject`) become `Nat` handles,
interior mutability (`Cell`, `GcRefCell`) becomes explicit state passing on an
environment-stack value, and effectful collaborators (the interpreter loop,
the parser, the host hooks, object-protocol methods) become explicit oracle
parameters.  Numeric `JsValue`s are idealized as integers: no claim below
depends on floating-point behavior.  Rust `panic!`/`expect` paths are marked
with comments; they are unreachable under the hypotheses of the theorems.
-/

/-- The kind of a native error surfaced by this core.  `syn` models
`JsNativeError::syntax()` (a `SyntaxError`), `typ` models `JsNativeError::typ()`
(a `TypeError`), and `ref` models `JsNativeError::reference()` (a
`ReferenceError`). -/
inductive JsErrorKind where
  | syn
  | typ
  | ref
  | host
  deriving Repr, DecidableEq

/-- A native error value: a kind together with its message, modelling
`JsNativeError` (realm stamping is not modelled). -/
structure JsError where
  kind : JsErrorKind
  message : String
  deriving Repr, DecidableEq

/-- The runtime value type, modelling `JsValue`.  Objects are shared handles,
modelled as bare `Nat` identities.  The two numeric variants of the source
(`Integer(i32)` and `Rational(f64)`) are idealized as a single integer
variant; no claim in this development inspects numeric values. -/
inductive JsValue where
  | undefined
  | null
  | boolean (b : Bool)
  | integer (n : Int)
  | string (s : String)
  | symbol (id : Nat)
  | bigint (n : Int)
  | object (id : Nat)
  deriving Repr, DecidableEq

namespace JsValue

/-- `JsValue::as_string`. -/
def as_string : JsValue → Option String
  | .string s => some s
  | _ => none

/-- `JsValue::as_object`. -/
def as_object : JsValue → Option Nat
  | .object o => some o
  | _ => none

/-- `JsValue::is_undefined`. -/
def is_undefined : JsValue → Bool
  | .undefined => true
  | _ => false

/-- `JsValue::is_null_or_undefined`. -/
def is_null_or_undefined : JsValue → Bool
  | .undefined => true
  | .null => true
  | _ => false

/-- `JsValue::to_boolean` (ECMAScript `ToBoolean`), on the idealized value
type: numbers convert to `false` exactly when they are zero. -/
def to_boolean : JsValue → Bool
  | .undefined => false
  | .null => false
  | .boolean b => b
  | .integer n => n != 0
  | .string s => s != ""
  | .symbol _ => true
  | .bigint n => n != 0
  | .object _ => true

end JsValue

/-- A compile-time environment handle (`Gc<GcRefCell<CompileTimeEnvironment>>`),
modelled by the interface the runtime consumes: `num_bindings()`,
`has_lex_binding(name)`, `is_function()`, `var_binding_indices()`,
`get_binding(name)` and `environment_index()`.  Identifiers (interner symbols)
are `Nat`.  `get_binding` returns the `(environment_index, binding_index)`
pair of `CompileTimeEnvironment::get_binding`. -/
structure CompileTimeEnvironment where
  num_bindings : Nat
  has_lex_binding : Nat → Bool
  is_function : Bool
  var_binding_indices : List Nat
  get_binding : Nat → Option (Nat × Nat)
  environment_index : Nat

/-- `ThisBindingStatus` from `environments/runtime.rs`. -/
inductive ThisBindingStatus where
  | lexical
  | initialized
  | uninitialized
  deriving Repr, DecidableEq

/-- `FunctionSlots`: the internal slots of a function environment.
`function_object` and `new_target` are object handles. -/
structure FunctionSlots where
  this : JsValue
  this_binding_status : ThisBindingStatus
  function_object : Nat
  new_target : Option Nat

/-- `EnvironmentSlots`: slot data of a declarative environment. -/
inductive EnvironmentSlots where
  | function (slots : FunctionSlots)
  | global

/-- `EnvironmentSlots::as_function_slots`. -/
def EnvironmentSlots.as_function_slots : EnvironmentSlots → Option FunctionSlots
  | .function slots => some slots
  | .global => none

/-- `DeclarativeEnvironment`: a binding vector (`None` = uninitialized slot),
a compile-time environment handle, the `poisoned` and `with` flags, and
optional slots.  The source's `with` field is named `with_flag` here because
`with` is a Lean keyword. -/
structure DeclarativeEnvironment where
  bindings : List (Option JsValue)
  compile : CompileTimeEnvironment
  poisoned : Bool
  with_flag : Bool
  slots : Option EnvironmentSlots

/-- A runtime environment: declarative, or an object environment (`with`
scope) holding an object handle. -/
inductive Environment where
  | declarative (env : DeclarativeEnvironment)
  | object (obj : Nat)

/-- `Environment::as_declarative`. -/
def Environment.as_declarative : Environment → Option DeclarativeEnvironment
  | .declarative env => some env
  | .object _ => none

/-- The `poisoned` flag of an environment (object environments carry no
flag and report `false`). -/
def Environment.poisoned_flag : Environment → Bool
  | .declarative env => env.poisoned
  | .object _ => false

/-!
The environment stack `DeclarativeEnvironmentStack` is modelled as a plain
`List Environment`; index 0 is the global environment.  Each mutating
method of the source becomes a function from stacks to stacks.
-/

/-- The nearest declarative environment from the top of the stack:
`self.stack.iter().rev().find_map(Environment::as_declarative)`. -/
def nearest_declarative (st : List Environment) : Option DeclarativeEnvironment :=
  st.reverse.findSome? Environment.as_declarative

/-- The `(poisoned, with)` pair computed by `push_declarative` and
`push_function`: `with` is true when the top environment is an object
environment, OR-ed with the nearest declarative ancestor's `with` flag, and
`poisoned` is inherited from that ancestor.  The source panics when the stack
holds no declarative environment (the global always exists); that case is
mapped to `(false, false)` here and excluded by hypotheses. -/
def push_env_flags (st : List Environment) : Bool × Bool :=
  let w := match st.getLast? with
    | some (.declarative _) => false
    | some (.object _) => true
    | none => false
  match nearest_declarative st with
  | some env => (env.poisoned, w || env.with_flag)
  | none => (false, w)

/-- `DeclarativeEnvironmentStack::push_declarative`: push a slot-less
declarative environment with `num_bindings` empty bindings, returning the new
stack and the index of the pushed environment. -/
def push_declarative (st : List Environment) (num_bindings : Nat)
    (compile : CompileTimeEnvironment) : List Environment × Nat :=
  let flags := push_env_flags st
  (st ++ [.declarative {
    bindings := List.replicate num_bindings none
    compile := compile
    poisoned := flags.1
    with_flag := flags.2
    slots := none }], st.length)

/-- The binding vector built by `push_function`: `num_bindings` empty slots,
then every index in `var_binding_indices` set to `Some(undefined)`.  The
source indexes the vector directly and panics on an out-of-range index;
`List.set` is a no-op there, and the in-range hypothesis is carried by the
theorems. -/
def init_function_bindings (num_bindings : Nat) (idxs : List Nat) : List (Option JsValue) :=
  idxs.foldl (fun bs i => bs.set i (some JsValue.undefined)) (List.replicate num_bindings none)

/-- `DeclarativeEnvironmentStack::push_function`. -/
def push_function (st : List Environment) (num_bindings : Nat)
    (compile : CompileTimeEnvironment) (this : Option JsValue)
    (function_object : Nat) (new_target : Option Nat) (lexical : Bool) :
    List Environment :=
  let flags := push_env_flags st
  let this_binding_status :=
    if lexical then ThisBindingStatus.lexical
    else if this.isSome then ThisBindingStatus.initialized
    else ThisBindingStatus.uninitialized
  st ++ [.declarative {
    bindings := init_function_bindings num_bindings compile.var_binding_indices
    compile := compile
    poisoned := flags.1
    with_flag := flags.2
    slots := some (.function {
      this := this.getD JsValue.null
      this_binding_status := this_binding_status
      function_object := function_object
      new_target := new_target }) }]

/-- The `(poisoned, with, slots)` triple of `push_function_inherit`: the
nearest declarative environment that has slots. -/
def nearest_declarative_with_slots (st : List Environment) : Option DeclarativeEnvironment :=
  st.reverse.findSome? (fun e =>
    match e.as_declarative with
    | some d => if d.slots.isSome then some d else none
    | none => none)

/-- `DeclarativeEnvironmentStack::push_function_inherit`: like `push_function`
but the slots are cloned from the nearest declarative environment with slots.
The source panics when there is none; that case pushes empty slots here. -/
def push_function_inherit (st : List Environment) (num_bindings : Nat)
    (compile : CompileTimeEnvironment) : List Environment :=
  let w0 := match st.getLast? with
    | some (.declarative _) => false
    | some (.object _) => true
    | none => false
  let (poisoned, w, slots) := match nearest_declarative_with_slots st with
    | some env => (env.poisoned, w0 || env.with_flag, env.slots)
    | none => (false, w0, none)
  st ++ [.declarative {
    bindings := init_function_bindings num_bindings compile.var_binding_indices
    compile := compile
    poisoned := poisoned
    with_flag := w
    slots := slots }]

/-- `DeclarativeEnvironmentStack::push_object`. -/
def push_object (st : List Environment) (obj : Nat) : List Environment × Nat :=
  (st ++ [.object obj], st.length)

/-- `DeclarativeEnvironmentStack::pop` (the stack effect; the source also
returns the popped environment and asserts the global is never popped). -/
def pop_environment (st : List Environment) : List Environment :=
  st.dropLast

/-- `DeclarativeEnvironmentStack::truncate`. -/
def truncate_environments (st : List Environment) (len : Nat) : List Environment :=
  st.take len

/-- `DeclarativeEnvironmentStack::extend`. -/
def extend_environments (st : List Environment) (other : List Environment) : List Environment :=
  st ++ other

/-- `DeclarativeEnvironmentStack::pop_to_global` (`self.stack.split_off(1)`):
the stack keeps only the global, and the detached tail is returned. -/
def pop_to_global (st : List Environment) : List Environment × List Environment :=
  (st.take 1, st.drop 1)

/-- `DeclarativeEnvironmentStack::replace_global` (`self.stack[0] = global`;
the source panics on an empty stack, where `List.set` is a no-op). -/
def replace_global (st : List Environment) (global : DeclarativeEnvironment) :
    List Environment :=
  st.set 0 (.declarative global)

/-- Whether a declarative environment has `Function` slots (used by
`extend_outer_function_environment`). -/
def DeclarativeEnvironment.has_function_slots (d : DeclarativeEnvironment) : Bool :=
  match d.slots with
  | some (.function _) => true
  | _ => false

/-- Whether an environment is declarative with a function compile-time
environment (the stopping condition of `poison_until_last_function`). -/
def Environment.is_function_compile : Environment → Bool
  | .declarative d => d.compile.is_function
  | .object _ => false

/-- Set the `poisoned` flag of a declarative environment; the identity on
object environments (which carry no flag). -/
def poison_env : Environment → Environment
  | .declarative d => .declarative { d with poisoned := true }
  | .object o => .object o

/-- The loop of `poison_until_last_function`, expressed on the reversed stack
(top first): set `poisoned = true` on each declarative environment, and stop
right after the first one whose compile-time environment is a function
environment.  Object environments are passed over unchanged (the source's
`filter_map(as_declarative)` skips them without stopping). -/
def poison_list : List Environment → List Environment
  | [] => []
  | e :: rest =>
    match e with
    | .object o => .object o :: poison_list rest
    | .declarative d =>
      if d.compile.is_function then .declarative { d with poisoned := true } :: rest
      else .declarative { d with poisoned := true } :: poison_list rest

/-- `DeclarativeEnvironmentStack::poison_until_last_function`. -/
def poison_until_last_function (st : List Environment) : List Environment :=
  (poison_list st.reverse).reverse

/-- Grow a function environment's binding vector to its compile-time binding
count, filling new slots with `None` (the body of the loop in
`extend_outer_function_environment`). -/
def extend_env_bindings (d : DeclarativeEnvironment) : DeclarativeEnvironment :=
  if d.compile.num_bindings > d.bindings.length then
    { d with bindings := d.bindings ++ List.replicate (d.compile.num_bindings - d.bindings.length) none }
  else d

/-- The loop of `extend_outer_function_environment` on the reversed stack:
find the first declarative environment with `Function` slots and grow it. -/
def extend_outer_list : List Environment → List Environment
  | [] => []
  | e :: rest =>
    match e with
    | .object o => .object o :: extend_outer_list rest
    | .declarative d =>
      if d.has_function_slots then .declarative (extend_env_bindings d) :: rest
      else .declarative d :: extend_outer_list rest

/-- `DeclarativeEnvironmentStack::extend_outer_function_environment`. -/
def extend_outer_function_environment (st : List Environment) : List Environment :=
  (extend_outer_list st.reverse).reverse

/-- The inner loop of `has_lex_binding_until_function_environment`, on the
reversed sequence of declarative environments: return the first provided name
that has a lexical binding in the environment's compile-time environment, and
stop at the first function compile-time environment.  The source iterates a
hash set of names; the model fixes a list order. -/
def has_lex_binding_list (names : List Nat) : List DeclarativeEnvironment → Option Nat
  | [] => none
  | d :: rest =>
    match names.find? (fun name => d.compile.has_lex_binding name) with
    | some name => some name
    | none => if d.compile.is_function then none else has_lex_binding_list names rest

/-- `DeclarativeEnvironmentStack::has_lex_binding_until_function_environment`. -/
def has_lex_binding_until_function_environment (st : List Environment)
    (names : List Nat) : Option Nat :=
  has_lex_binding_list names (st.reverse.filterMap Environment.as_declarative)

/-- The loop of `get_this_environment` on the reversed stack: the first
declarative environment whose slots provide a `this` binding (`Function`
slots with non-lexical status, or the `Global` slots).  The source panics
when none exists (the global always does); that case is `none` here. -/
def get_this_environment_list : List Environment → Option EnvironmentSlots
  | [] => none
  | .object _ :: rest => get_this_environment_list rest
  | .declarative d :: rest =>
    match d.slots with
    | some (.function fs) =>
      if fs.this_binding_status != ThisBindingStatus.lexical then some (.function fs)
      else get_this_environment_list rest
    | some .global => some .global
    | none => get_this_environment_list rest

/-- `DeclarativeEnvironmentStack::get_this_environment`. -/
def get_this_environment (st : List Environment) : Option EnvironmentSlots :=
  get_this_environment_list st.reverse

/-- `DeclarativeEnvironmentStack::put_declarative_value`: unconditional store
into a binding slot.  The source panics on an out-of-range environment or
binding index or on a non-declarative environment; those cases leave the
stack unchanged here. -/
def put_declarative_value (st : List Environment) (environment_index binding_index : Nat)
    (value : JsValue) : List Environment :=
  match st[environment_index]? with
  | some (.declarative d) =>
    st.set environment_index
      (.declarative { d with bindings := d.bindings.set binding_index (some value) })
  | _ => st

/-- `DeclarativeEnvironmentStack::put_value_if_uninitialized`: store only when
the slot is `None`. -/
def put_value_if_uninitialized (st : List Environment) (environment_index binding_index : Nat)
    (value : JsValue) : List Environment :=
  match st[environment_index]? with
  | some (.declarative d) =>
    match d.bindings[binding_index]? with
    | some none =>
      st.set environment_index
        (.declarative { d with bindings := d.bindings.set binding_index (some value) })
    | _ => st
  | _ => st

/-- `BindingLocator`: the compile-time binding address refined at runtime. -/
structure BindingLocator where
  name : Nat
  environment_index : Nat
  binding_index : Nat
  global : Bool
  mutate_immutable : Bool
  silent : Bool
  deriving Repr, DecidableEq

/-- `BindingLocator::declarative`. -/
def BindingLocator.declarative (name environment_index binding_index : Nat) :
    BindingLocator :=
  { name := name
    environment_index := environment_index
    binding_index := binding_index
    global := false
    mutate_immutable := false
    silent := false }

/-- `BindingLocator::global`. -/
def BindingLocator.global_locator (name : Nat) : BindingLocator :=
  { name := name
    environment_index := 0
    binding_index := 0
    global := true
    mutate_immutable := false
    silent := false }

/-- The object-protocol operations consumed by `find_runtime_binding`.  The
source resolves the locator's interner symbol to a string key; the model keys
directly by the symbol.  Each operation is fallible (it may run user traps or
getters), hence the `Except`. -/
structure ObjectOps where
  has_property : Nat → Nat → Except JsError Bool
  get_unscopables : Nat → Except JsError JsValue
  get_prop : Nat → Nat → Except JsError JsValue

/-- The `@@unscopables` test of the object-environment arm of
`find_runtime_binding`: read the object's `@@unscopables` value, and when it
is itself an object, read the property named by the binding and coerce it to
a boolean; a truthy result means the object environment is skipped. -/
def unscopables_skip (ops : ObjectOps) (obj name : Nat) : Except JsError Bool :=
  match ops.get_unscopables obj with
  | .error e => .error e
  | .ok u =>
    match u.as_object with
    | some uo =>
      match ops.get_prop uo name with
      | .error e => .error e
      | .ok v => .ok v.to_boolean
    | none => .ok false

/-- The index sequence of the `find_runtime_binding` walk:
`(locator.environment_index..stack.len()).rev()`. -/
def walk_indices (st : List Environment) (loc : BindingLocator) : List Nat :=
  (List.range' loc.environment_index (st.length - loc.environment_index)).reverse

/-- The loop body of `find_runtime_binding`, over an explicit index list.
For each index, from the top of the stack down:
a poisoned declarative function environment whose compile-time environment
has a binding retargets the locator and stops; a non-poisoned non-`with`
declarative environment stops without modification; an object environment
whose object has the property (and is not excluded by `@@unscopables`)
retargets the locator to that environment and stops; every other environment
is passed over.  An index outside the stack cannot occur (the source panics
there); it terminates the walk here. -/
def find_runtime_binding_loop (st : List Environment) (ops : ObjectOps)
    (loc : BindingLocator) : List Nat → Except JsError BindingLocator
  | [] => .ok loc
  | i :: rest =>
    match st[i]? with
    | none => .ok loc
    | some (.declarative env) =>
      if env.poisoned then
        if env.compile.is_function then
          match env.compile.get_binding loc.name with
          | some b => .ok { loc with
              environment_index := b.1
              binding_index := b.2
              global := false }
          | none => find_runtime_binding_loop st ops loc rest
        else find_runtime_binding_loop st ops loc rest
      else if !env.with_flag then .ok loc
      else find_runtime_binding_loop st ops loc rest
    | some (.object o) =>
      match ops.has_property o loc.name with
      | .error e => .error e
      | .ok false => find_runtime_binding_loop st ops loc rest
      | .ok true =>
        match unscopables_skip ops o loc.name with
        | .error e => .error e
        | .ok true => find_runtime_binding_loop st ops loc rest
        | .ok false => .ok { loc with environment_index := i, global := false }

/-- The fast-path test of `find_runtime_binding`: the current (top)
environment is declarative and neither `with` nor poisoned. -/
def find_runtime_binding_fast_path (st : List Environment) : Bool :=
  match st.getLast? with
  | some (.declarative env) => !env.with_flag && !env.poisoned
  | _ => false

/-- `Context::find_runtime_binding`: return the locator unchanged on the fast
path, otherwise run the walk.  (An empty stack cannot occur: the source's
`current()` panics; the walk is empty there and the locator is returned.) -/
def find_runtime_binding (st : List Environment) (ops : ObjectOps)
    (loc : BindingLocator) : Except JsError BindingLocator :=
  if find_runtime_binding_fast_path st then .ok loc
  else find_runtime_binding_loop st ops loc (walk_indices st loc)

/-- The deletion operations consumed by `delete_binding`: `__delete__` on the
global object and on an object environment's object.  Both may run traps, so
they are fallible and may transform the environment stack. -/
structure DeleteOps where
  delete_global : Nat → List Environment → Except JsError Bool × List Environment
  delete_object : Nat → Nat → List Environment → Except JsError Bool × List Environment

/-- Events recording which deletions `delete_binding` actually attempts. -/
inductive DeleteEvent where
  | deleted_global (name : Nat)
  | deleted_object (obj name : Nat)
  deriving Repr, DecidableEq

/-- `Context::delete_binding`: global locators delete on the global object;
locators pointing at an object environment delete on that object; locators
pointing at a declarative environment return `Ok(false)` and touch nothing.
(An out-of-range environment index panics in the source; it returns
`Ok(false)` here and is excluded by hypotheses.) -/
def delete_binding (ops : DeleteOps) (st : List Environment) (loc : BindingLocator) :
    Except JsError Bool × List Environment × List DeleteEvent :=
  if loc.global then
    let r := ops.delete_global loc.name st
    (r.1, r.2, [.deleted_global loc.name])
  else
    match st[loc.environment_index]? with
    | some (.declarative _) => (.ok false, st, [])
    | some (.object o) =>
      let r := ops.delete_object o loc.name st
      (r.1, r.2, [.deleted_object o loc.name])
    | none => (.ok false, st, [])

/-!
The `eval` entry point (`builtins/eval/mod.rs`).  The parser, the host hook,
the bytecode compiler and the interpreter are external collaborators, modelled
as oracle fields of `EvalHost`; the environment-stack discipline around them
is translated literally from `Eval::perform_eval`.
-/

/-- The properties of a parsed eval body that `perform_eval` consumes: the
strict flag of the parsed script, the `Contains*` queries, and
`top_level_var_declared_names`. -/
structure EvalBody where
  strict : Bool
  contains_new_target : Bool
  contains_super_property : Bool
  contains_super_call : Bool
  contains_arguments : Bool
  top_level_var_declared_names : List Nat

/-- The function-object data read while computing the eval context flags:
`is_derived_constructor()`, `class_field_initializer_name().is_some()`, and
`get_home_object().is_some()` (for `HasSuperBinding`). -/
structure FunctionObjInfo where
  is_derived_constructor : Bool
  has_class_field_initializer : Bool
  has_home_object : Bool

/-- The external collaborators of `perform_eval`: the host hook
`ensure_can_compile_strings`, the parser (`parse_eval`, taking the caller
strictness and the `direct` flag), the function-object reader, the interner,
and the compile-and-execute step (`Context::execute` on the compiled
`CodeBlock`), which transforms the environment stack and yields a result. -/
structure EvalHost where
  ensure_can_compile_strings : Except JsError Unit
  parse : Bool → Bool → Except JsError EvalBody
  func_info : Nat → FunctionObjInfo
  resolve : Nat → String
  execute : List Environment → Except JsError JsValue × List Environment

/-- The early-error flags of `perform_eval`. -/
structure EvalFlags where
  in_function : Bool
  in_method : Bool
  in_derived_constructor : Bool
  in_class_field_initializer : Bool

/-- All-false eval flags (`Flags::default()`). -/
def eval_flags_default : EvalFlags :=
  { in_function := false
    in_method := false
    in_derived_constructor := false
    in_class_field_initializer := false }

/-- `FunctionSlots::has_super_binding`: false for a lexical `this` binding,
otherwise whether the function object has a home object. -/
def FunctionSlots.has_super_binding (fs : FunctionSlots) (info : FunctionObjInfo) : Bool :=
  if fs.this_binding_status = ThisBindingStatus.lexical then false
  else info.has_home_object

/-- The flag computation of `perform_eval` steps 6-10: when the call is
direct and `GetThisEnvironment` yields function slots, read the in-function /
in-method / in-derived-constructor / in-class-field-initializer flags from
those slots and the function object; otherwise all flags are false. -/
def compute_eval_flags (host : EvalHost) (direct : Bool) (st : List Environment) :
    EvalFlags :=
  match get_this_environment st with
  | some (.function fs) =>
    if direct then
      let info := host.func_info fs.function_object
      { in_function := true
        in_method := fs.has_super_binding info
        in_derived_constructor := info.is_derived_constructor
        in_class_field_initializer := info.has_class_field_initializer }
    else eval_flags_default
  | _ => eval_flags_default

/-- `EnvStackAction` from `perform_eval`: what to do to the environment stack
on exit. -/
inductive EnvStackAction where
  | truncate (size : Nat)
  | restore (envs : List Environment)

/-- `restore_environment` from `perform_eval`: truncate, or truncate to the
global and re-extend with the saved environments. -/
def restore_environment (st : List Environment) : EnvStackAction → List Environment
  | .truncate size => truncate_environments st size
  | .restore envs => extend_environments (truncate_environments st 1) envs

/-- The scope-installation step of `perform_eval`: for a direct call, poison
up to the last function environment when non-strict and remember the stack
length for truncation; for an indirect call, detach everything above the
global and remember it for restoration.  Returns the action together with the
stack as left by this step. -/
def eval_scope_action (direct strict : Bool) (st : List Environment) :
    EnvStackAction × List Environment :=
  if direct then
    let st1 := if !strict then poison_until_last_function st else st
    (.truncate st1.length, st1)
  else
    let r := pop_to_global st
    (.restore r.2, r.1)

/-- Events recording whether `perform_eval` compiled and executed the body. -/
inductive EvalEvent where
  | compiled
  | executed
  deriving Repr, DecidableEq

/-- The redeclaration error message of `perform_eval` (the source's
`format!` string with the resolved name interpolated). -/
def eval_redeclaration_message (name : String) : String :=
  "variable declaration " ++ name ++ " in eval function already exists as a lexical variable"

/-- `Eval::perform_eval`, returning the result, the final environment stack,
and the compile/execute events.  The steps, in source order: return non-string
arguments unchanged; run the host hook; parse; compute the context flags;
reject `new.target` / `super` property / `super()` / `arguments` misuse;
fold the body strictness in; install the scope (poison or detach) and record
the restore action; reject var-over-lexical redeclarations when non-strict
(restoring the stack); compile; extend the outer function environment for
direct non-strict calls; execute; always restore. -/
def perform_eval (host : EvalHost) (x : JsValue) (direct strict0 : Bool)
    (st : List Environment) :
    Except JsError JsValue × List Environment × List EvalEvent :=
  match x.as_string with
  | none => (.ok x, st, [])
  | some _ =>
    match host.ensure_can_compile_strings with
    | .error e => (.error e, st, [])
    | .ok _ =>
      match host.parse strict0 direct with
      | .error e => (.error e, st, [])
      | .ok body =>
        let flags := compute_eval_flags host direct st
        if !flags.in_function && body.contains_new_target then
          (.error { kind := .syn, message := "invalid `new.target` expression inside eval" }, st, [])
        else if !flags.in_method && body.contains_super_property then
          (.error { kind := .syn, message := "invalid `super` reference inside eval" }, st, [])
        else if !flags.in_derived_constructor && body.contains_super_call then
          (.error { kind := .syn, message := "invalid `super` call inside eval" }, st, [])
        else if flags.in_class_field_initializer && body.contains_arguments then
          (.error { kind := .syn, message := "invalid `arguments` reference inside eval" }, st, [])
        else
          let strict := strict0 || body.strict
          let r := eval_scope_action direct strict st
          let action := r.1
          let st1 := r.2
          let redeclared :=
            if !strict then
              has_lex_binding_until_function_environment st1 body.top_level_var_declared_names
            else none
          match redeclared with
          | some name =>
            (.error { kind := .syn
                      message := eval_redeclaration_message (host.resolve name) },
             restore_environment st1 action, [])
          | none =>
            let st2 :=
              if direct && !strict then extend_outer_function_environment st1 else st1
            let exec := host.execute st2
            (exec.1, restore_environment exec.2 action, [.compiled, .executed])

/-!
The call/construct engine (`vm/code_block.rs`).  The bytecode interpreter,
`to_object` coercion, and the arguments-object builders are oracles; the
environment prologue of `call_internal` / `construct_internal` is translated
literally.  Only the fields of `CodeBlock` that the entry points read are
modelled.
-/

/-- `ThisMode` of a `CodeBlock`. -/
inductive ThisMode where
  | lexical
  | strict
  | global
  deriving Repr, DecidableEq

/-- The `CodeBlock` fields consumed by `call_internal` / `construct_internal`.
`params_count` models `params.as_ref().len()` and `params_is_simple` models
`params.is_simple()`. -/
structure CodeBlock where
  name : Nat
  has_binding_identifier : Bool
  length : Nat
  strict : Bool
  this_mode : ThisMode
  params_count : Nat
  params_is_simple : Bool
  num_bindings : Nat
  arguments_binding : Option BindingLocator
  compile_environments : List CompileTimeEnvironment
  is_class_constructor : Bool
  parameters_env_bindings : Option Nat

/-- A compile-time environment standing in for an out-of-range
`compile_environments[i]` access (which panics in the source; unreachable
under the theorems' hypotheses). -/
def default_compile_environment : CompileTimeEnvironment :=
  { num_bindings := 0
    has_lex_binding := fun _ => false
    is_function := false
    var_binding_indices := []
    get_binding := fun _ => none
    environment_index := 0 }

/-- `ConstructorKind` of a function object. -/
inductive ConstructorKind where
  | base
  | derived
  deriving Repr, DecidableEq

/-- `ConstructorKind::is_base`. -/
def ConstructorKind.is_base : ConstructorKind → Bool
  | .base => true
  | .derived => false

/-- Events recording what `call_internal` did: pushed a runtime environment,
or ran the interpreter on the function body. -/
inductive CallEvent where
  | pushed_environment
  | ran_body
  deriving Repr, DecidableEq

/-- The external collaborators of `call_internal`: `to_object` coercion (which
cannot fail on non-null, non-undefined input and yields an object handle), the
created arguments object (mapped or unmapped, both built by external
collaborators), and the interpreter loop. -/
structure CallOracle where
  to_object : JsValue → Nat
  arguments_object : JsValue
  run : List Environment → Except JsError JsValue × List Environment

/-- The `FunctionKind::Ordinary` arm of `JsObject::call_internal` (non-async,
non-generator): the class-constructor guard, the `this` materialization, the
environment prologue (class object, binding identifier, function environment,
parameters environment, arguments binding), and the interpreter run.  The
returned event list records every environment push and the body run, in
order; the guard path performs none of them. -/
def call_internal_ordinary (code : CodeBlock) (captured : List Environment)
    (self_fn : Nat) (class_object : Option Nat) (global_object : Nat)
    (this_arg : JsValue) (o : CallOracle) :
    Except JsError JsValue × List CallEvent :=
  if code.is_class_constructor then
    (.error { kind := .typ, message := "class constructor cannot be invoked without 'new'" }, [])
  else
    let lexical_this_mode := code.this_mode = ThisMode.lexical
    let this : Option JsValue :=
      if lexical_this_mode then none
      else if code.strict then some this_arg
      else if this_arg.is_null_or_undefined then some (.object global_object)
      else some (.object (o.to_object this_arg))
    let last_env0 := code.compile_environments.length - 1
    let step1 : List Environment × List CallEvent × Nat :=
      match class_object with
      | some co =>
        let p := push_declarative captured 1
          (code.compile_environments.getD last_env0 default_compile_environment)
        (put_declarative_value p.1 p.2 0 (.object co), [.pushed_environment], last_env0 - 1)
      | none => (captured, [], last_env0)
    let step2 : List Environment × List CallEvent × Nat :=
      if code.has_binding_identifier then
        let p := push_declarative step1.1 1
          (code.compile_environments.getD step1.2.2 default_compile_environment)
        (put_declarative_value p.1 p.2 0 (.object self_fn), [.pushed_environment], step1.2.2 - 1)
      else (step1.1, [], step1.2.2)
    let st3 := push_function step2.1 code.num_bindings
      (code.compile_environments.getD step2.2.2 default_compile_environment)
      this self_fn none lexical_this_mode
    let step4 : List Environment × List CallEvent :=
      match code.parameters_env_bindings with
      | some bindings =>
        ((push_declarative st3 bindings
          (code.compile_environments.getD (step2.2.2 - 1) default_compile_environment)).1,
         [.pushed_environment])
      | none => (st3, [])
    let st5 :=
      match code.arguments_binding with
      | some binding =>
        put_declarative_value step4.1 binding.environment_index binding.binding_index
          o.arguments_object
      | none => step4.1
    let runr := o.run st5
    (runr.1,
     step1.2.1 ++ step2.2.1 ++ [.pushed_environment] ++ step4.2 ++ [.ran_body])

/-- The external collaborators of `construct_internal`: the base-constructor
`this` allocation (`get_prototype_from_constructor` plus
`initialize_instance_elements`, both fallible), the arguments object, and the
interpreter loop. -/
structure ConstructOracle where
  alloc_this : Except JsError Nat
  arguments_object : JsValue
  run : List Environment → Except JsError JsValue × List Environment

/-- The environment prologue of the `FunctionKind::Ordinary` arm of
`construct_internal`: optional binding-identifier environment, the function
environment (with `new_target` set and `lexical = false`), the optional
parameters environment (which the source indexes at `compile_environments[0]`),
and the arguments binding. -/
def construct_prologue (code : CodeBlock) (captured : List Environment)
    (self_fn new_target : Nat) (this : Option Nat) (arguments_object : JsValue) :
    List Environment :=
  let last_env0 := code.compile_environments.length - 1
  let step1 : List Environment × Nat :=
    if code.has_binding_identifier then
      let p := push_declarative captured 1
        (code.compile_environments.getD last_env0 default_compile_environment)
      (put_declarative_value p.1 p.2 0 (.object self_fn), last_env0 - 1)
    else (captured, last_env0)
  let st2 := push_function step1.1 code.num_bindings
    (code.compile_environments.getD step1.2 default_compile_environment)
    (this.map JsValue.object) self_fn (some new_target) false
  let st3 :=
    match code.parameters_env_bindings with
    | some bindings =>
      (push_declarative st2 bindings
        (code.compile_environments.getD 0 default_compile_environment)).1
    | none => st2
  match code.arguments_binding with
  | some binding =>
    put_declarative_value st3 binding.environment_index binding.binding_index arguments_object
  | none => st3

/-- The environment recovery of `construct_internal` after the interpreter
returns: truncate the callee stack to just above the captured environments and
pop the function environment (one environment deeper when a binding-identifier
environment was pushed below it). -/
def construct_recover_environment (code : CodeBlock) (environments_len : Nat)
    (st : List Environment) : Option Environment :=
  if code.has_binding_identifier then
    (truncate_environments st (environments_len + 2)).getLast?
  else
    (truncate_environments st (environments_len + 1)).getLast?

/-- `FunctionSlots::get_this_binding`: a `ReferenceError` when the `this`
binding is still uninitialized, otherwise the `this` value. -/
def FunctionSlots.get_this_binding (fs : FunctionSlots) : Except JsError JsValue :=
  if fs.this_binding_status = ThisBindingStatus.uninitialized then
    .error { kind := .ref
             message := "Must call super constructor in derived class before accessing 'this' or returning from derived constructor" }
  else .ok fs.this

/-- A marker for return paths on which the source panics (`expect` on a
non-function environment or a non-object `this` binding); unreachable under
the theorems' hypotheses. -/
def construct_panic : Except JsError JsValue :=
  .error { kind := .host, message := "unreachable: source panics" }

/-- The return coercion of scripted `construct_internal` after the interpreter
run: an object result is returned as-is; else a base-constructed `this` is
returned; else a non-undefined result is a `TypeError`; else the `this`
binding is read from the recovered function environment's slots. -/
def construct_result (this : Option Nat) (record : Except JsError JsValue)
    (environment : Option Environment) : Except JsError JsValue :=
  match record with
  | .error e => .error e
  | .ok result =>
    match result.as_object with
    | some _ => .ok result
    | none =>
      match this with
      | some t => .ok (.object t)
      | none =>
        if !result.is_undefined then
          .error { kind := .typ
                   message := "derived constructor can only return an Object or undefined" }
        else
          match environment with
          | some (.declarative d) =>
            match d.slots with
            | some (.function fs) =>
              match fs.get_this_binding with
              | .error e => .error e
              | .ok v =>
                match v.as_object with
                | some _ => .ok v
                | none => construct_panic
            | _ => construct_panic
          | _ => construct_panic

/-- The `FunctionKind::Ordinary` arm of `JsObject::construct_internal`: for a
base constructor, allocate `this` from the constructor's prototype (running
instance-element initializers); for a derived constructor, `this` is absent.
Then run the environment prologue, the interpreter, the environment recovery,
and the return coercion. -/
def construct_internal_ordinary (code : CodeBlock) (kind : ConstructorKind)
    (captured : List Environment) (self_fn new_target : Nat) (o : ConstructOracle) :
    Except JsError JsValue :=
  let thisr : Except JsError (Option Nat) :=
    if kind.is_base then o.alloc_this.map some else .ok none
  match thisr with
  | .error e => .error e
  | .ok this =>
    let environments_len := captured.length
    let st0 := construct_prologue code captured self_fn new_target this o.arguments_object
    let runr := o.run st0
    let environment := construct_recover_environment code environments_len runr.2
    construct_result this runr.1 environment

/-- The operations of `DeclarativeEnvironmentStack`, as a datatype so that
properties over all of them can be stated uniformly. -/
inductive StackOp where
  | push_declarative_op (num_bindings : Nat) (compile : CompileTimeEnvironment)
  | push_function_op (num_bindings : Nat) (compile : CompileTimeEnvironment)
      (this : Option JsValue) (function_object : Nat) (new_target : Option Nat)
      (lexical : Bool)
  | push_function_inherit_op (num_bindings : Nat) (compile : CompileTimeEnvironment)
  | push_object_op (obj : Nat)
  | pop_op
  | pop_to_global_op
  | truncate_op (len : Nat)
  | extend_op (envs : List Environment)
  | poison_until_last_function_op
  | extend_outer_function_environment_op
  | put_declarative_value_op (environment_index binding_index : Nat) (value : JsValue)
  | put_value_if_uninitialized_op (environment_index binding_index : Nat) (value : JsValue)
  | replace_global_op (global : DeclarativeEnvironment)

/-- The stack effect of each `DeclarativeEnvironmentStack` operation. -/
def apply_stack_op (st : List Environment) : StackOp → List Environment
  | .push_declarative_op n c => (push_declarative st n c).1
  | .push_function_op n c this f nt lex => push_function st n c this f nt lex
  | .push_function_inherit_op n c => push_function_inherit st n c
  | .push_object_op o => (push_object st o).1
  | .pop_op => pop_environment st
  | .pop_to_global_op => (pop_to_global st).1
  | .truncate_op len => truncate_environments st len
  | .extend_op envs => extend_environments st envs
  | .poison_until_last_function_op => poison_until_last_function st
  | .extend_outer_function_environment_op => extend_outer_function_environment st
  | .put_declarative_value_op ei bi v => put_declarative_value st ei bi v
  | .put_value_if_uninitialized_op ei bi v => put_value_if_uninitialized st ei bi v
  | .replace_global_op g => replace_global st g

/-- Whether a stack operation replaces the environment at index 0 with a
different environment (`replace_global` removes the old global from the
stack, so the old global is no longer live afterwards). -/
def StackOp.replaces_global : StackOp → Bool
  | .replace_global_op _ => true
  | _ => false

/-!  Theorems.  Each claim of the specification gets exactly one theorem;
concrete fixtures for the witnesses follow the theorems that need them. -/

/-- Whether the top environment of the stack is an object environment. -/
def top_is_object (st : List Environment) : Bool :=
  match st.getLast? with
  | some (.object _) => true
  | _ => false

theorem push_env_flags_eq (st : List Environment) (anc : DeclarativeEnvironment)
    (hanc : nearest_declarative st = some anc) :
    push_env_flags st = (anc.poisoned, top_is_object st || anc.with_flag) := by
  unfold push_env_flags top_is_object
  rw [hanc]
  cases h : st.getLast? with
  | none => simp
  | some e => cases e <;> simp

/-- Claim C7: on a stack containing the global environment, an environment
pushed by `push_declarative` (and likewise by `push_function`) inherits its
`poisoned` flag from the nearest declarative environment below it, and its
`with` flag is the OR of that ancestor's `with` flag and whether the
immediately preceding (top) environment is an object environment. -/
theorem claim_c7_push_inherits_flags (st : List Environment) (n : Nat)
    (c : CompileTimeEnvironment) (this : Option JsValue) (f : Nat)
    (nt : Option Nat) (lex : Bool) (anc : DeclarativeEnvironment)
    (hanc : nearest_declarative st = some anc) :
    (∃ d, (push_declarative st n c).1 = st ++ [Environment.declarative d] ∧
      d.poisoned = anc.poisoned ∧ d.with_flag = (top_is_object st || anc.with_flag)) ∧
    (∃ d, push_function st n c this f nt lex = st ++ [Environment.declarative d] ∧
      d.poisoned = anc.poisoned ∧ d.with_flag = (top_is_object st || anc.with_flag)) := by
  refine ⟨⟨_, rfl, ?_, ?_⟩, ⟨_, rfl, ?_, ?_⟩⟩ <;>
    simp [push_env_flags_eq st anc hanc]

/-- A concrete global declarative environment, used in witness instances. -/
def witness_global_env : DeclarativeEnvironment :=
  { bindings := []
    compile := default_compile_environment
    poisoned := false
    with_flag := false
    slots := some .global }

theorem claim_c7_witness :
    nearest_declarative [Environment.declarative witness_global_env] =
      some witness_global_env ∧
    ((∃ d, (push_declarative [Environment.declarative witness_global_env] 1
        default_compile_environment).1 =
        [Environment.declarative witness_global_env] ++ [Environment.declarative d] ∧
      d.poisoned = witness_global_env.poisoned ∧
      d.with_flag = (top_is_object [Environment.declarative witness_global_env] ||
        witness_global_env.with_flag)) ∧
    (∃ d, push_function [Environment.declarative witness_global_env] 1
        default_compile_environment none 0 none false =
        [Environment.declarative witness_global_env] ++ [Environment.declarative d] ∧
      d.poisoned = witness_global_env.poisoned ∧
      d.with_flag = (top_is_object [Environment.declarative witness_global_env] ||
        witness_global_env.with_flag))) :=
  ⟨rfl, claim_c7_push_inherits_flags [Environment.declarative witness_global_env] 1
    default_compile_environment none 0 none false witness_global_env rfl⟩

/-- Claim C10: `delete_binding` on a non-global locator that points at a
declarative environment returns `Ok(false)`, leaves the environment stack
(and so every binding of every environment) unchanged, and attempts no
deletion on any object. -/
theorem claim_c10_delete_binding_declarative (ops : DeleteOps) (st : List Environment)
    (loc : BindingLocator) (d : DeclarativeEnvironment)
    (hng : loc.global = false)
    (hd : st[loc.environment_index]? = some (.declarative d)) :
    delete_binding ops st loc = (.ok false, st, []) := by
  simp [delete_binding, hng, hd]

/-- A deletion oracle that deletes every property, used in witness instances
(it is never consulted on the declarative path). -/
def witness_delete_ops : DeleteOps :=
  { delete_global := fun _ st => (.ok true, st)
    delete_object := fun _ _ st => (.ok true, st) }

theorem claim_c10_witness :
    (BindingLocator.declarative 5 0 0).global = false ∧
    [Environment.declarative witness_global_env][(BindingLocator.declarative 5 0 0).environment_index]? =
      some (.declarative witness_global_env) ∧
    delete_binding witness_delete_ops [Environment.declarative witness_global_env]
      (BindingLocator.declarative 5 0 0) =
      (.ok false, [Environment.declarative witness_global_env], []) :=
  ⟨rfl, rfl, claim_c10_delete_binding_declarative witness_delete_ops
    [Environment.declarative witness_global_env]
    (BindingLocator.declarative 5 0 0) witness_global_env rfl rfl⟩

/-- Claim C9: `call_internal` on an ordinary function whose `CodeBlock` has
`is_class_constructor` set returns a `TypeError` with message "class
constructor cannot be invoked without 'new'", with no environment pushed and
without running the function body. -/
theorem claim_c9_class_constructor_guard (code : CodeBlock) (captured : List Environment)
    (self_fn : Nat) (class_object : Option Nat) (global_object : Nat)
    (this_arg : JsValue) (o : CallOracle)
    (h : code.is_class_constructor = true) :
    call_internal_ordinary code captured self_fn class_object global_object this_arg o =
      (.error { kind := .typ, message := "class constructor cannot be invoked without 'new'" },
       []) := by
  simp [call_internal_ordinary, h]

/-- A concrete class-constructor `CodeBlock`, used in witness instances. -/
def witness_class_code : CodeBlock :=
  { name := 0
    has_binding_identifier := false
    length := 0
    strict := false
    this_mode := .global
    params_count := 0
    params_is_simple := true
    num_bindings := 0
    arguments_binding := none
    compile_environments := [default_compile_environment]
    is_class_constructor := true
    parameters_env_bindings := none }

/-- A concrete call oracle, used in witness instances. -/
def witness_call_oracle : CallOracle :=
  { to_object := fun _ => 0
    arguments_object := .undefined
    run := fun st => (.ok .undefined, st) }

theorem claim_c9_witness :
    witness_class_code.is_class_constructor = true ∧
    call_internal_ordinary witness_class_code [Environment.declarative witness_global_env]
      0 none 0 .undefined witness_call_oracle =
      (.error { kind := .typ, message := "class constructor cannot be invoked without 'new'" },
       []) :=
  ⟨rfl, claim_c9_class_constructor_guard witness_class_code
    [Environment.declarative witness_global_env] 0 none 0 .undefined witness_call_oracle rfl⟩

theorem foldl_set_length (idxs : List Nat) (v : Option JsValue)
    (bs : List (Option JsValue)) :
    (idxs.foldl (fun bs i => bs.set i v) bs).length = bs.length := by
  induction idxs generalizing bs with
  | nil => rfl
  | cons j rest ih => simp [ih]

theorem foldl_set_getElem? (idxs : List Nat) (v : Option JsValue)
    (bs : List (Option JsValue)) (i : Nat) :
    (idxs.foldl (fun bs i => bs.set i v) bs)[i]? =
      if i ∈ idxs ∧ i < bs.length then some v else bs[i]? := by
  induction idxs generalizing bs with
  | nil => simp
  | cons j rest ih =>
    simp only [List.foldl_cons, ih, List.length_set]
    by_cases hm : i ∈ rest
    · by_cases hl : i < bs.length
      · simp [hm, hl]
      · have h1 : bs[i]? = none := by
          rw [List.getElem?_eq_none_iff]; omega
        have h2 : (bs.set j v)[i]? = none := by
          rw [List.getElem?_eq_none_iff]; simp; omega
        simp [hm, hl, h1, h2]
    · by_cases hj : i = j
      · subst hj
        by_cases hl : i < bs.length
        · simp [hm, hl, List.getElem?_set_self hl]
        · have h1 : bs[i]? = none := by
            rw [List.getElem?_eq_none_iff]; omega
          have h2 : (bs.set i v)[i]? = none := by
            rw [List.getElem?_eq_none_iff]; simp; omega
          simp [hm, hl, h1, h2]
      · have hne : j ≠ i := fun h => hj h.symm
        simp [hm, hj, List.getElem?_set_ne hne]

theorem init_function_bindings_length (n : Nat) (idxs : List Nat) :
    (init_function_bindings n idxs).length = n := by
  unfold init_function_bindings
  rw [foldl_set_length]
  simp

theorem init_function_bindings_getElem? (n : Nat) (idxs : List Nat) (i : Nat)
    (h : i < n) :
    (init_function_bindings n idxs)[i]? =
      some (if i ∈ idxs then some JsValue.undefined else none) := by
  unfold init_function_bindings
  rw [foldl_set_getElem?]
  by_cases hm : i ∈ idxs <;> simp [hm, h, List.getElem?_replicate]


/-- Claim C6: `push_function` pushes an environment whose
`this_binding_status` is `Lexical` when the `lexical` flag is set, else
`Initialized` when a `this` value was supplied, else `Uninitialized`; its
binding vector has length `num_bindings`, the slots at exactly the indices
listed in the compile-time environment's `var_binding_indices` hold
`undefined`, and every other slot is absent (uninitialized). -/
theorem claim_c6_push_function_spec (st : List Environment) (n : Nat)
    (c : CompileTimeEnvironment) (this : Option JsValue) (f : Nat)
    (nt : Option Nat) (lex : Bool) (anc : DeclarativeEnvironment)
    (hanc : nearest_declarative st = some anc)
    (hidx : ∀ i ∈ c.var_binding_indices, i < n) :
    ∃ d : DeclarativeEnvironment,
      push_function st n c this f nt lex = st ++ [Environment.declarative d] ∧
      d.slots = some (.function
        { this := this.getD JsValue.null
          this_binding_status :=
            if lex then .lexical
            else if this.isSome then .initialized
            else .uninitialized
          function_object := f
          new_target := nt }) ∧
      d.bindings.length = n ∧
      (∀ i, i < n →
        (d.bindings[i]? = some (some JsValue.undefined) ↔ i ∈ c.var_binding_indices)) ∧
      (∀ i, i < n → i ∉ c.var_binding_indices → d.bindings[i]? = some none) := by
  refine ⟨_, rfl, rfl, init_function_bindings_length n c.var_binding_indices, ?_, ?_⟩
  · intro i hi
    rw [init_function_bindings_getElem? n c.var_binding_indices i hi]
    by_cases hm : i ∈ c.var_binding_indices <;> simp [hm]
  · intro i hi hm
    rw [init_function_bindings_getElem? n c.var_binding_indices i hi]
    simp [hm]

/-- A concrete compile-time environment with two bindings, the first of which
is a `var` binding, used in witness instances. -/
def witness_var_cte : CompileTimeEnvironment :=
  { num_bindings := 2
    has_lex_binding := fun _ => false
    is_function := true
    var_binding_indices := [0]
    get_binding := fun _ => none
    environment_index := 1 }

theorem claim_c6_witness :
    nearest_declarative [Environment.declarative witness_global_env] =
      some witness_global_env ∧
    (∀ i ∈ witness_var_cte.var_binding_indices, i < 2) ∧
    (∃ d : DeclarativeEnvironment,
      push_function [Environment.declarative witness_global_env] 2 witness_var_cte
        none 3 none false =
        [Environment.declarative witness_global_env] ++ [Environment.declarative d] ∧
      d.slots = some (.function
        { this := JsValue.null
          this_binding_status := .uninitialized
          function_object := 3
          new_target := none }) ∧
      d.bindings.length = 2 ∧
      (∀ i, i < 2 →
        (d.bindings[i]? = some (some JsValue.undefined) ↔
          i ∈ witness_var_cte.var_binding_indices)) ∧
      (∀ i, i < 2 → i ∉ witness_var_cte.var_binding_indices →
        d.bindings[i]? = some none)) :=
  ⟨rfl, by decide,
    claim_c6_push_function_spec [Environment.declarative witness_global_env] 2
      witness_var_cte none 3 none false witness_global_env rfl (by decide)⟩

theorem poison_list_length (r : List Environment) :
    (poison_list r).length = r.length := by
  induction r with
  | nil => rfl
  | cons e0 rest ih =>
    cases e0 with
    | object o => simpa [poison_list] using ih
    | declarative d =>
      by_cases hf : d.compile.is_function <;> simp [poison_list, hf, ih]

theorem poison_list_getElem? (r : List Environment) (j : Nat) (e : Environment)
    (h : r[j]? = some e) :
    (poison_list r)[j]? =
      some (if j ≤ r.findIdx Environment.is_function_compile then poison_env e else e) := by
  induction r generalizing j with
  | nil => simp at h
  | cons e0 rest ih =>
    cases j with
    | zero =>
      simp only [List.getElem?_cons_zero, Option.some_inj] at h
      subst h
      cases e0 with
      | object o => simp [poison_list, poison_env]
      | declarative d =>
        by_cases hf : d.compile.is_function <;>
          simp [poison_list, hf, poison_env]
    | succ k =>
      simp only [List.getElem?_cons_succ] at h
      cases e0 with
      | object o =>
        have hfc : Environment.is_function_compile (.object o) = false := rfl
        simp only [poison_list, List.getElem?_cons_succ, List.findIdx_cons, hfc,
          cond_false]
        rw [ih k h]
        simp [Nat.add_le_add_iff_right]
      | declarative d =>
        by_cases hf : d.compile.is_function
        · have hfc : Environment.is_function_compile (.declarative d) = true := hf
          simp [poison_list, hf, List.findIdx_cons, hfc, h]
        · have hfc : Environment.is_function_compile (.declarative d) = false := by
            simpa [Environment.is_function_compile] using hf
          have hunf : poison_list (Environment.declarative d :: rest) =
              Environment.declarative { d with poisoned := true } :: poison_list rest := by
            simp [poison_list, hf]
          rw [hunf]
          simp only [List.getElem?_cons_succ, List.findIdx_cons, hfc, cond_false]
          rw [ih k h]
          simp [Nat.add_le_add_iff_right]

theorem extend_outer_list_pointwise (r : List Environment) (i : Nat)
    (e e' : Environment) (h : r[i]? = some e)
    (h' : (extend_outer_list r)[i]? = some e') :
    e'.poisoned_flag = e.poisoned_flag := by
  induction r generalizing i with
  | nil => simp at h
  | cons e0 rest ih =>
    cases i with
    | zero =>
      simp only [List.getElem?_cons_zero, Option.some_inj] at h
      subst h
      cases e0 with
      | object o =>
        simp only [extend_outer_list, List.getElem?_cons_zero, Option.some_inj] at h'
        subst h'; rfl
      | declarative d =>
        by_cases hf : d.has_function_slots = true
        · have hunf : extend_outer_list (Environment.declarative d :: rest) =
              Environment.declarative (extend_env_bindings d) :: rest := by
            simp [extend_outer_list, hf]
          rw [hunf] at h'
          simp only [List.getElem?_cons_zero, Option.some_inj] at h'
          subst h'
          simp only [Environment.poisoned_flag, extend_env_bindings]
          split <;> rfl
        · have hunf : extend_outer_list (Environment.declarative d :: rest) =
              Environment.declarative d :: extend_outer_list rest := by
            simp [extend_outer_list, hf]
          rw [hunf] at h'
          simp only [List.getElem?_cons_zero, Option.some_inj] at h'
          subst h'; rfl
    | succ k =>
      simp only [List.getElem?_cons_succ] at h
      cases e0 with
      | object o =>
        simp only [extend_outer_list, List.getElem?_cons_succ] at h'
        exact ih k h h'
      | declarative d =>
        by_cases hf : d.has_function_slots = true
        · have hunf : extend_outer_list (Environment.declarative d :: rest) =
              Environment.declarative (extend_env_bindings d) :: rest := by
            simp [extend_outer_list, hf]
          rw [hunf] at h'
          simp only [List.getElem?_cons_succ] at h'
          rw [h'] at h
          injection h with h
          rw [h]
        · have hunf : extend_outer_list (Environment.declarative d :: rest) =
              Environment.declarative d :: extend_outer_list rest := by
            simp [extend_outer_list, hf]
          rw [hunf] at h'
          simp only [List.getElem?_cons_succ] at h'
          exact ih k h h'

theorem rev_map_pointwise (P : Environment → Environment → Prop)
    (f : List Environment → List Environment)
    (hlen : ∀ r : List Environment, (f r).length = r.length)
    (hpt : ∀ (r : List Environment) (i : Nat) (e e' : Environment),
      r[i]? = some e → (f r)[i]? = some e' → P e e')
    (st : List Environment) (i : Nat) (e e' : Environment)
    (h : st[i]? = some e) (h' : ((f st.reverse).reverse)[i]? = some e') : P e e' := by
  have hi : i < st.length := by
    rcases List.getElem?_eq_some_iff.1 h with ⟨hi, _⟩
    exact hi
  have hlen2 : (f st.reverse).length = st.length := by
    rw [hlen, List.length_reverse]
  have hi2 : i < (f st.reverse).length := by omega
  rw [List.getElem?_reverse hi2, hlen2] at h'
  have hj : st.length - 1 - i < st.length := by omega
  have h2 : st.reverse[st.length - 1 - i]? = some e := by
    rw [List.getElem?_reverse hj]
    have heq : st.length - 1 - (st.length - 1 - i) = i := by omega
    rw [heq]; exact h
  exact hpt st.reverse (st.length - 1 - i) e e' h2 h'

theorem extend_outer_list_length (r : List Environment) :
    (extend_outer_list r).length = r.length := by
  induction r with
  | nil => rfl
  | cons e0 rest ih =>
    cases e0 with
    | object o => simpa [extend_outer_list] using ih
    | declarative d =>
      by_cases hf : d.has_function_slots = true <;>
        simp [extend_outer_list, hf, ih]

theorem entry_unique {st : List Environment} {i : Nat} {e e' : Environment}
    (h : st[i]? = some e) (h' : st[i]? = some e') : e' = e := by
  rw [h] at h'
  exact (Option.some_inj.1 h').symm

theorem poison_list_mono (r : List Environment) (i : Nat) (e e' : Environment)
    (h : r[i]? = some e) (h' : (poison_list r)[i]? = some e')
    (hp : e.poisoned_flag = true) : e'.poisoned_flag = true := by
  rw [poison_list_getElem? r i e h] at h'
  injection h' with h'
  subst h'
  split
  · cases e with
    | declarative d => simp [poison_env, Environment.poisoned_flag]
    | object o => exact hp
  · exact hp

/-- Claim C8: (1) no operation of the environment stack ever changes a live
environment's `poisoned` flag from `true` to `false` — for every operation,
every stack position occupied both before and after (excluding position 0 for
`replace_global`, which removes the old global from the stack) keeps a set
`poisoned` flag set; and (2) `poison_until_last_function` sets `poisoned` on
every declarative environment from the top of the stack down to and including
the first environment whose compile-time environment is a function
environment, and leaves every deeper environment unchanged. -/
theorem claim_c8_poison_monotone :
    (∀ (op : StackOp) (st : List Environment) (i : Nat) (e e' : Environment),
      st[i]? = some e → (apply_stack_op st op)[i]? = some e' →
      (op.replaces_global = true → i ≠ 0) →
      e.poisoned_flag = true → e'.poisoned_flag = true) ∧
    (∀ (st : List Environment) (j : Nat) (e : Environment),
      st.reverse[j]? = some e →
      (poison_until_last_function st).reverse[j]? =
        some (if j ≤ st.reverse.findIdx Environment.is_function_compile
              then poison_env e else e)) := by
  constructor
  · intro op st i e e' h h' hrg hp
    have hi : i < st.length := by
      rcases List.getElem?_eq_some_iff.1 h with ⟨hi, _⟩
      exact hi
    cases op with
    | push_declarative_op n c =>
      simp only [apply_stack_op, push_declarative] at h'
      rw [List.getElem?_append_left hi] at h'
      rw [entry_unique h h']
      exact hp
    | push_function_op n c this f nt lex =>
      simp only [apply_stack_op, push_function] at h'
      rw [List.getElem?_append_left hi] at h'
      rw [entry_unique h h']
      exact hp
    | push_function_inherit_op n c =>
      simp only [apply_stack_op, push_function_inherit] at h'
      rw [List.getElem?_append_left hi] at h'
      rw [entry_unique h h']
      exact hp
    | push_object_op o =>
      simp only [apply_stack_op, push_object] at h'
      rw [List.getElem?_append_left hi] at h'
      rw [entry_unique h h']
      exact hp
    | extend_op envs =>
      simp only [apply_stack_op, extend_environments] at h'
      rw [List.getElem?_append_left hi] at h'
      rw [entry_unique h h']
      exact hp
    | pop_op =>
      simp only [apply_stack_op, pop_environment] at h'
      rw [List.getElem?_dropLast] at h'
      split at h'
      · rw [entry_unique h h']
        exact hp
      · exact absurd h' (by simp)
    | pop_to_global_op =>
      simp only [apply_stack_op, pop_to_global, truncate_environments] at h'
      rw [List.getElem?_take] at h'
      split at h'
      · rw [entry_unique h h']
        exact hp
      · exact absurd h' (by simp)
    | truncate_op len =>
      simp only [apply_stack_op, truncate_environments] at h'
      rw [List.getElem?_take] at h'
      split at h'
      · rw [entry_unique h h']
        exact hp
      · exact absurd h' (by simp)
    | poison_until_last_function_op =>
      simp only [apply_stack_op, poison_until_last_function] at h'
      exact rev_map_pointwise
        (fun a b => a.poisoned_flag = true → b.poisoned_flag = true)
        poison_list poison_list_length
        (fun r k a b ha hb hpa => poison_list_mono r k a b ha hb hpa)
        st i e e' h h' hp
    | extend_outer_function_environment_op =>
      simp only [apply_stack_op, extend_outer_function_environment] at h'
      have := rev_map_pointwise
        (fun a b => b.poisoned_flag = a.poisoned_flag)
        extend_outer_list extend_outer_list_length
        extend_outer_list_pointwise st i e e' h h'
      rw [this]
      exact hp
    | put_declarative_value_op ei bi v =>
      simp only [apply_stack_op, put_declarative_value] at h'
      cases hms : st[ei]? with
      | none =>
        rw [hms] at h'
        rw [entry_unique h h']
        exact hp
      | some em =>
        cases em with
        | object o =>
          rw [hms] at h'
          rw [entry_unique h h']
          exact hp
        | declarative d =>
          rw [hms] at h'
          simp only at h'
          by_cases hei : ei = i
          · subst hei
            have hlt : ei < st.length := by
              rcases List.getElem?_eq_some_iff.1 hms with ⟨hlt, _⟩
              exact hlt
            rw [List.getElem?_set_self hlt] at h'
            have he : e = .declarative d := entry_unique hms h
            injection h' with h'
            subst h'
            rw [he] at hp
            simpa [Environment.poisoned_flag] using hp
          · rw [List.getElem?_set_ne hei] at h'
            rw [entry_unique h h']
            exact hp
    | put_value_if_uninitialized_op ei bi v =>
      simp only [apply_stack_op, put_value_if_uninitialized] at h'
      cases hms : st[ei]? with
      | none =>
        rw [hms] at h'
        rw [entry_unique h h']
        exact hp
      | some em =>
        cases em with
        | object o =>
          rw [hms] at h'
          rw [entry_unique h h']
          exact hp
        | declarative d =>
          rw [hms] at h'
          simp only at h'
          cases hbs : d.bindings[bi]? with
          | none =>
            rw [hbs] at h'
            rw [entry_unique h h']
            exact hp
          | some ob =>
            cases ob with
            | some bv =>
              rw [hbs] at h'
              simp only at h'
              rw [entry_unique h h']
              exact hp
            | none =>
              rw [hbs] at h'
              simp only at h'
              by_cases hei : ei = i
              · subst hei
                have hlt : ei < st.length := by
                  rcases List.getElem?_eq_some_iff.1 hms with ⟨hlt, _⟩
                  exact hlt
                rw [List.getElem?_set_self hlt] at h'
                have he : e = .declarative d := entry_unique hms h
                injection h' with h'
                subst h'
                rw [he] at hp
                simpa [Environment.poisoned_flag] using hp
              · rw [List.getElem?_set_ne hei] at h'
                rw [entry_unique h h']
                exact hp
    | replace_global_op g =>
      simp only [apply_stack_op, replace_global] at h'
      have hne : (0 : Nat) ≠ i := fun h0 => (hrg rfl) h0.symm
      rw [List.getElem?_set_ne hne] at h'
      rw [entry_unique h h']
      exact hp
  · intro st j e h
    have hrw : (poison_until_last_function st).reverse = poison_list st.reverse := by
      simp [poison_until_last_function]
    rw [hrw]
    exact poison_list_getElem? st.reverse j e h

/-- A concrete poisoned declarative environment, used in witness instances. -/
def witness_poisoned_env : DeclarativeEnvironment :=
  { bindings := []
    compile := default_compile_environment
    poisoned := true
    with_flag := false
    slots := none }

theorem claim_c8_witness :
    ([Environment.declarative witness_poisoned_env,
        Environment.declarative witness_global_env][0]? =
      some (Environment.declarative witness_poisoned_env)) ∧
    ((apply_stack_op [Environment.declarative witness_poisoned_env,
        Environment.declarative witness_global_env] (.truncate_op 1))[0]? =
      some (Environment.declarative witness_poisoned_env)) ∧
    (Environment.declarative witness_poisoned_env).poisoned_flag = true ∧
    ([Environment.declarative witness_global_env].reverse[0]? =
      some (Environment.declarative witness_global_env)) ∧
    (poison_until_last_function [Environment.declarative witness_global_env]).reverse[0]? =
      some (if 0 ≤ [Environment.declarative witness_global_env].reverse.findIdx
              Environment.is_function_compile
            then poison_env (Environment.declarative witness_global_env)
            else Environment.declarative witness_global_env) :=
  ⟨rfl, rfl,
   claim_c8_poison_monotone.1 (.truncate_op 1)
     [Environment.declarative witness_poisoned_env,
      Environment.declarative witness_global_env] 0
     (Environment.declarative witness_poisoned_env)
     (Environment.declarative witness_poisoned_env) rfl rfl
     (fun hx => absurd hx (by decide)) rfl,
   rfl,
   claim_c8_poison_monotone.2 [Environment.declarative witness_global_env] 0
     (Environment.declarative witness_global_env) rfl⟩

/-- Whether the `find_runtime_binding` walk passes over an environment
without stopping, erroring, or modifying the locator: a poisoned declarative
environment that does not resolve the name (not a function compile-time
environment, or no binding for the name), a non-poisoned declarative
environment with the `with` flag set, or an object environment whose object
lacks the property or excludes it through `@@unscopables`. -/
def step_skips (ops : ObjectOps) (name : Nat) : Environment → Bool
  | .declarative d =>
    if d.poisoned then
      if d.compile.is_function then (d.compile.get_binding name).isNone else true
    else d.with_flag
  | .object o =>
    match ops.has_property o name with
    | .ok false => true
    | .ok true =>
      match unscopables_skip ops o name with
      | .ok true => true
      | _ => false
    | .error _ => false

theorem find_loop_skip (st : List Environment) (ops : ObjectOps)
    (loc : BindingLocator) (i : Nat) (rest : List Nat) (e : Environment)
    (h : st[i]? = some e) (hskip : step_skips ops loc.name e = true) :
    find_runtime_binding_loop st ops loc (i :: rest) =
      find_runtime_binding_loop st ops loc rest := by
  cases e with
  | declarative d =>
    simp only [find_runtime_binding_loop, h]
    cases hp : d.poisoned with
    | true =>
      cases hfn : d.compile.is_function with
      | true =>
        simp only [step_skips, hp, hfn, if_true] at hskip
        rw [Option.isNone_iff_eq_none] at hskip
        simp [hp, hfn, hskip]
      | false =>
        simp [hp, hfn]
    | false =>
      simp only [step_skips, hp] at hskip
      simp only [Bool.false_eq_true, if_false] at hskip
      simp [hp, hskip]
  | object o =>
    simp only [find_runtime_binding_loop, h]
    cases hprop : ops.has_property o loc.name with
    | error err =>
      simp only [step_skips, hprop] at hskip
      simp at hskip
    | ok b =>
      cases b with
      | false => simp
      | true =>
        cases hskp : unscopables_skip ops o loc.name with
        | error err =>
          simp only [step_skips, hprop, hskp] at hskip
          simp at hskip
        | ok sb =>
          cases sb with
          | false =>
            simp only [step_skips, hprop, hskp] at hskip
            simp at hskip
          | true => simp

theorem find_loop_skips_pre (st : List Environment) (ops : ObjectOps)
    (loc : BindingLocator) (pre l : List Nat)
    (hpre : ∀ j ∈ pre, ∃ e, st[j]? = some e ∧ step_skips ops loc.name e = true) :
    find_runtime_binding_loop st ops loc (pre ++ l) =
      find_runtime_binding_loop st ops loc l := by
  induction pre with
  | nil => rfl
  | cons j rest ih =>
    rcases hpre j (List.mem_cons_self j rest) with ⟨e, he, hskip⟩
    rw [List.cons_append, find_loop_skip st ops loc j (rest ++ l) e he hskip]
    exact ih (fun k hk => hpre k (List.mem_cons_of_mem j hk))

/-- Claim C3: `find_runtime_binding` leaves the locator unchanged when the
top environment is declarative and neither poisoned nor `with` (the fast
path); otherwise it walks from the top of the stack down to the locator's
environment index and, at the first environment not passed over: a
declarative environment that is neither poisoned nor `with` stops the walk
with the locator unmodified, and a poisoned declarative function environment
whose compile-time environment has a binding for the locator's name
retargets the locator to that binding's environment and binding indices with
the global flag cleared. -/
theorem claim_c3_find_runtime_binding_walk (st : List Environment)
    (ops : ObjectOps) (loc : BindingLocator) :
    (∀ env : DeclarativeEnvironment,
      st.getLast? = some (.declarative env) → env.poisoned = false →
      env.with_flag = false → find_runtime_binding st ops loc = .ok loc) ∧
    (∀ pre i rest, walk_indices st loc = pre ++ i :: rest →
      (∀ j ∈ pre, ∃ e, st[j]? = some e ∧ step_skips ops loc.name e = true) →
      find_runtime_binding_fast_path st = false →
      ∀ d : DeclarativeEnvironment, st[i]? = some (.declarative d) →
        (d.poisoned = false → d.with_flag = false →
          find_runtime_binding st ops loc = .ok loc) ∧
        (∀ ei bi, d.poisoned = true → d.compile.is_function = true →
          d.compile.get_binding loc.name = some (ei, bi) →
          find_runtime_binding st ops loc =
            .ok { loc with
              environment_index := ei
              binding_index := bi
              global := false })) := by
  constructor
  · intro env hlast hpois hwith
    have hfast : find_runtime_binding_fast_path st = true := by
      simp [find_runtime_binding_fast_path, hlast, hpois, hwith]
    simp [find_runtime_binding, hfast]
  · intro pre i rest hsplit hpre hslow d hd
    have hfind : find_runtime_binding st ops loc =
        find_runtime_binding_loop st ops loc (i :: rest) := by
      rw [find_runtime_binding, hslow]
      simp only [Bool.false_eq_true, if_false]
      rw [hsplit, find_loop_skips_pre st ops loc pre (i :: rest) hpre]
    constructor
    · intro hpois hwith
      rw [hfind]
      simp [find_runtime_binding_loop, hd, hpois, hwith]
    · intro ei bi hpois hfn hget
      rw [hfind]
      simp [find_runtime_binding_loop, hd, hpois, hfn, hget]

/-- Claim C4: during the `find_runtime_binding` walk, an object environment
whose object has the property named by the locator either ends the walk with
the locator retargeted to that environment (global flag cleared), or — when
the object's `@@unscopables` value is an object whose property of that name
coerces to `true` — is skipped, the walk continuing with the environments
below it. -/
theorem claim_c4_object_environment_unscopables (st : List Environment)
    (ops : ObjectOps) (loc : BindingLocator) (pre : List Nat) (i : Nat)
    (rest : List Nat) (o : Nat)
    (hsplit : walk_indices st loc = pre ++ i :: rest)
    (hpre : ∀ j ∈ pre, ∃ e, st[j]? = some e ∧ step_skips ops loc.name e = true)
    (hslow : find_runtime_binding_fast_path st = false)
    (hobj : st[i]? = some (.object o))
    (hprop : ops.has_property o loc.name = .ok true) :
    (unscopables_skip ops o loc.name = .ok true →
      find_runtime_binding st ops loc = find_runtime_binding_loop st ops loc rest) ∧
    (unscopables_skip ops o loc.name = .ok false →
      find_runtime_binding st ops loc =
        .ok { loc with environment_index := i, global := false }) := by
  have hfind : find_runtime_binding st ops loc =
      find_runtime_binding_loop st ops loc (i :: rest) := by
    rw [find_runtime_binding, hslow]
    simp only [Bool.false_eq_true, if_false]
    rw [hsplit, find_loop_skips_pre st ops loc pre (i :: rest) hpre]
  constructor
  · intro hskip
    rw [hfind]
    simp [find_runtime_binding_loop, hobj, hprop, hskip]
  · intro hstop
    rw [hfind]
    simp [find_runtime_binding_loop, hobj, hprop, hstop]

/-- A concrete function compile-time environment that resolves name `5` to
binding `(1, 0)`, used in witness instances. -/
def witness_fn_cte : CompileTimeEnvironment :=
  { num_bindings := 1
    has_lex_binding := fun _ => false
    is_function := true
    var_binding_indices := []
    get_binding := fun n => if n = 5 then some (1, 0) else none
    environment_index := 1 }

/-- A concrete poisoned function environment, used in witness instances. -/
def witness_poisoned_fn_env : DeclarativeEnvironment :=
  { bindings := [none]
    compile := witness_fn_cte
    poisoned := true
    with_flag := false
    slots := none }

/-- A concrete object-protocol oracle on which no object has any property,
used in witness instances. -/
def witness_object_ops : ObjectOps :=
  { has_property := fun _ _ => .ok false
    get_unscopables := fun _ => .ok .undefined
    get_prop := fun _ _ => .ok .undefined }

theorem claim_c3_witness :
    ([Environment.declarative witness_global_env].getLast? =
      some (.declarative witness_global_env) ∧
     witness_global_env.poisoned = false ∧
     witness_global_env.with_flag = false ∧
     find_runtime_binding [Environment.declarative witness_global_env]
       witness_object_ops (BindingLocator.declarative 5 0 0) =
       .ok (BindingLocator.declarative 5 0 0)) ∧
    (walk_indices [Environment.declarative witness_global_env,
        Environment.declarative witness_poisoned_fn_env]
        (BindingLocator.declarative 5 0 0) = [] ++ 1 :: [0] ∧
     find_runtime_binding_fast_path [Environment.declarative witness_global_env,
        Environment.declarative witness_poisoned_fn_env] = false ∧
     [Environment.declarative witness_global_env,
        Environment.declarative witness_poisoned_fn_env][1]? =
       some (.declarative witness_poisoned_fn_env) ∧
     witness_poisoned_fn_env.poisoned = true ∧
     witness_poisoned_fn_env.compile.is_function = true ∧
     witness_poisoned_fn_env.compile.get_binding 5 = some (1, 0) ∧
     find_runtime_binding [Environment.declarative witness_global_env,
        Environment.declarative witness_poisoned_fn_env] witness_object_ops
        (BindingLocator.declarative 5 0 0) =
       .ok { BindingLocator.declarative 5 0 0 with
         environment_index := 1
         binding_index := 0
         global := false }) :=
  ⟨⟨rfl, rfl, rfl,
    (claim_c3_find_runtime_binding_walk [Environment.declarative witness_global_env]
      witness_object_ops (BindingLocator.declarative 5 0 0)).1
      witness_global_env rfl rfl rfl⟩,
   ⟨rfl, rfl, rfl, rfl, rfl, rfl,
    ((claim_c3_find_runtime_binding_walk
        [Environment.declarative witness_global_env,
         Environment.declarative witness_poisoned_fn_env]
        witness_object_ops (BindingLocator.declarative 5 0 0)).2
      [] 1 [0] rfl (fun j hj => absurd hj (List.not_mem_nil j)) rfl
      witness_poisoned_fn_env rfl).2 1 0 rfl rfl rfl⟩⟩

/-- An oracle for which object `7` has property `5` and no `@@unscopables`
object, used in witness instances. -/
def witness_ops_stop : ObjectOps :=
  { has_property := fun o n => .ok (o == 7 && n == 5)
    get_unscopables := fun _ => .ok .undefined
    get_prop := fun _ _ => .ok .undefined }

/-- An oracle for which object `7` has property `5` but its `@@unscopables`
object (object `9`) marks name `5` as unscopable, used in witness
instances. -/
def witness_ops_skip : ObjectOps :=
  { has_property := fun o n => .ok (o == 7 && n == 5)
    get_unscopables := fun o => if o == 7 then .ok (.object 9) else .ok .undefined
    get_prop := fun o n => .ok (.boolean (o == 9 && n == 5)) }

theorem claim_c4_witness :
    (walk_indices [Environment.declarative witness_global_env, Environment.object 7]
      (BindingLocator.declarative 5 0 0) = [] ++ 1 :: [0] ∧
     find_runtime_binding_fast_path
       [Environment.declarative witness_global_env, Environment.object 7] = false ∧
     [Environment.declarative witness_global_env, Environment.object 7][1]? =
       some (.object 7) ∧
     witness_ops_stop.has_property 7 5 = .ok true ∧
     unscopables_skip witness_ops_stop 7 5 = .ok false ∧
     find_runtime_binding
       [Environment.declarative witness_global_env, Environment.object 7]
       witness_ops_stop (BindingLocator.declarative 5 0 0) =
       .ok { BindingLocator.declarative 5 0 0 with
         environment_index := 1
         global := false }) ∧
    (witness_ops_skip.has_property 7 5 = .ok true ∧
     unscopables_skip witness_ops_skip 7 5 = .ok true ∧
     find_runtime_binding
       [Environment.declarative witness_global_env, Environment.object 7]
       witness_ops_skip (BindingLocator.declarative 5 0 0) =
       find_runtime_binding_loop
         [Environment.declarative witness_global_env, Environment.object 7]
         witness_ops_skip (BindingLocator.declarative 5 0 0) [0]) :=
  ⟨⟨rfl, rfl, rfl, rfl, rfl,
    (claim_c4_object_environment_unscopables
      [Environment.declarative witness_global_env, Environment.object 7]
      witness_ops_stop (BindingLocator.declarative 5 0 0) [] 1 [0] 7 rfl
      (fun j hj => absurd hj (List.not_mem_nil j)) rfl rfl rfl).2 rfl⟩,
   ⟨rfl, rfl,
    (claim_c4_object_environment_unscopables
      [Environment.declarative witness_global_env, Environment.object 7]
      witness_ops_skip (BindingLocator.declarative 5 0 0) [] 1 [0] 7 rfl
      (fun j hj => absurd hj (List.not_mem_nil j)) rfl rfl rfl).1 rfl⟩⟩

/-- Claim C5: for a non-strict eval body (caller and body both non-strict),
when the redeclaration check finds a var-declared name of the body already
bound lexically between the top of the stack and the first function
environment, `perform_eval` neither compiles nor executes the body: it
restores the environment stack per the recorded action and returns a
`SyntaxError` whose message contains the colliding name. -/
theorem claim_c5_eval_redeclaration (host : EvalHost) (x : JsValue)
    (direct strict0 : Bool) (st : List Environment) (s : String)
    (body : EvalBody) (name : Nat)
    (h1 : x.as_string = some s)
    (h2 : host.ensure_can_compile_strings = .ok ())
    (h3 : host.parse strict0 direct = .ok body)
    (h4 : (!(compute_eval_flags host direct st).in_function &&
      body.contains_new_target) = false)
    (h5 : (!(compute_eval_flags host direct st).in_method &&
      body.contains_super_property) = false)
    (h6 : (!(compute_eval_flags host direct st).in_derived_constructor &&
      body.contains_super_call) = false)
    (h7 : ((compute_eval_flags host direct st).in_class_field_initializer &&
      body.contains_arguments) = false)
    (h8 : (strict0 || body.strict) = false)
    (h9 : has_lex_binding_until_function_environment
      (eval_scope_action direct false st).2 body.top_level_var_declared_names =
      some name) :
    perform_eval host x direct strict0 st =
      (.error { kind := .syn
                message := eval_redeclaration_message (host.resolve name) },
       restore_environment (eval_scope_action direct false st).2
         (eval_scope_action direct false st).1,
       []) ∧
    (host.resolve name).data <:+: (eval_redeclaration_message (host.resolve name)).data := by
  constructor
  · simp only [perform_eval, h1, h2, h3, h4, h5, h6, h7, h8, Bool.false_eq_true,
      if_false, Bool.not_false, if_true, h9]
  · have hmsg : eval_redeclaration_message (host.resolve name) =
        "variable declaration " ++ host.resolve name ++
          " in eval function already exists as a lexical variable" := rfl
    rw [hmsg]
    simp only [String.data_append]
    exact List.infix_append _ _ _

/-- A concrete compile-time environment with a lexical binding for name `5`,
used in witness instances. -/
def witness_lex_cte : CompileTimeEnvironment :=
  { num_bindings := 1
    has_lex_binding := fun n => n == 5
    is_function := false
    var_binding_indices := []
    get_binding := fun _ => none
    environment_index := 1 }

/-- A concrete declarative environment with a lexical binding for name `5`,
used in witness instances. -/
def witness_lex_env : DeclarativeEnvironment :=
  { bindings := [none]
    compile := witness_lex_cte
    poisoned := false
    with_flag := false
    slots := none }

/-- A concrete eval body declaring `var` name `5` at the top level, used in
witness instances. -/
def witness_redecl_body : EvalBody :=
  { strict := false
    contains_new_target := false
    contains_super_property := false
    contains_super_call := false
    contains_arguments := false
    top_level_var_declared_names := [5] }

/-- A concrete eval host whose parser yields `witness_redecl_body`, used in
witness instances. -/
def witness_redecl_host : EvalHost :=
  { ensure_can_compile_strings := .ok ()
    parse := fun _ _ => .ok witness_redecl_body
    func_info := fun _ => { is_derived_constructor := false
                            has_class_field_initializer := false
                            has_home_object := false }
    resolve := fun _ => "y"
    execute := fun st => (.ok .undefined, st) }

theorem claim_c5_witness :
    (JsValue.string "var y = 3; y").as_string = some "var y = 3; y" ∧
    witness_redecl_host.parse false true = .ok witness_redecl_body ∧
    has_lex_binding_until_function_environment
      (eval_scope_action true false
        [Environment.declarative witness_global_env,
         Environment.declarative witness_lex_env]).2
      witness_redecl_body.top_level_var_declared_names = some 5 ∧
    perform_eval witness_redecl_host (JsValue.string "var y = 3; y") true false
      [Environment.declarative witness_global_env,
       Environment.declarative witness_lex_env] =
      (.error { kind := .syn
                message := eval_redeclaration_message (witness_redecl_host.resolve 5) },
       restore_environment
         (eval_scope_action true false
           [Environment.declarative witness_global_env,
            Environment.declarative witness_lex_env]).2
         (eval_scope_action true false
           [Environment.declarative witness_global_env,
            Environment.declarative witness_lex_env]).1,
       []) ∧
    (witness_redecl_host.resolve 5).data <:+:
      (eval_redeclaration_message (witness_redecl_host.resolve 5)).data :=
  ⟨rfl, rfl, rfl,
   (claim_c5_eval_redeclaration witness_redecl_host (JsValue.string "var y = 3; y")
     true false
     [Environment.declarative witness_global_env,
      Environment.declarative witness_lex_env]
     "var y = 3; y" witness_redecl_body 5 rfl rfl rfl rfl rfl rfl rfl rfl rfl).1,
   (claim_c5_eval_redeclaration witness_redecl_host (JsValue.string "var y = 3; y")
     true false
     [Environment.declarative witness_global_env,
      Environment.declarative witness_lex_env]
     "var y = 3; y" witness_redecl_body 5 rfl rfl rfl rfl rfl rfl rfl rfl rfl).2⟩

theorem poison_until_last_function_length (st : List Environment) :
    (poison_until_last_function st).length = st.length := by
  simp [poison_until_last_function, poison_list_length]

/-- The environment stack on which `perform_eval` runs the compiled body:
the stack left by the scope-installation step, with the outer function
environment extended for direct non-strict calls. -/
def eval_exec_stack (direct strict : Bool) (st : List Environment) :
    List Environment :=
  if direct && !strict then
    extend_outer_function_environment (eval_scope_action direct strict st).2
  else (eval_scope_action direct strict st).2

/-- Claim C1: when `perform_eval` reaches the scope-installation step and the
redeclaration check passes, the environment stack returned by `perform_eval`
is the restore action applied to the post-execution stack, on the success and
on the failure path of the body execution alike: for a direct eval the stack
is truncated back to its pre-eval length, and for an indirect eval it is
truncated to the global environment and re-extended with the exact sequence
of environments detached before execution. -/
theorem claim_c1_eval_stack_restored (host : EvalHost) (x : JsValue)
    (direct strict0 : Bool) (st : List Environment) (s : String) (body : EvalBody)
    (h1 : x.as_string = some s)
    (h2 : host.ensure_can_compile_strings = .ok ())
    (h3 : host.parse strict0 direct = .ok body)
    (h4 : (!(compute_eval_flags host direct st).in_function &&
      body.contains_new_target) = false)
    (h5 : (!(compute_eval_flags host direct st).in_method &&
      body.contains_super_property) = false)
    (h6 : (!(compute_eval_flags host direct st).in_derived_constructor &&
      body.contains_super_call) = false)
    (h7 : ((compute_eval_flags host direct st).in_class_field_initializer &&
      body.contains_arguments) = false)
    (h8 : (strict0 || body.strict) = false →
      has_lex_binding_until_function_environment
        (eval_scope_action direct (strict0 || body.strict) st).2
        body.top_level_var_declared_names = none) :
    perform_eval host x direct strict0 st =
      ((host.execute (eval_exec_stack direct (strict0 || body.strict) st)).1,
       restore_environment
         (host.execute (eval_exec_stack direct (strict0 || body.strict) st)).2
         (eval_scope_action direct (strict0 || body.strict) st).1,
       [.compiled, .executed]) ∧
    (direct = true →
      restore_environment
        (host.execute (eval_exec_stack direct (strict0 || body.strict) st)).2
        (eval_scope_action direct (strict0 || body.strict) st).1 =
      (host.execute (eval_exec_stack direct (strict0 || body.strict) st)).2.take
        st.length) ∧
    (direct = false →
      restore_environment
        (host.execute (eval_exec_stack direct (strict0 || body.strict) st)).2
        (eval_scope_action direct (strict0 || body.strict) st).1 =
      (host.execute (eval_exec_stack direct (strict0 || body.strict) st)).2.take 1 ++
        st.drop 1) := by
  refine ⟨?_, ?_, ?_⟩
  · simp only [perform_eval, h1, h2, h3, h4, h5, h6, h7, Bool.false_eq_true, if_false]
    cases hs : strict0 || body.strict with
    | false =>
      rw [hs] at h8
      simp only [Bool.not_false, if_true, h8 rfl, eval_exec_stack]
    | true =>
      simp only [Bool.not_true, Bool.false_eq_true, if_false, eval_exec_stack]
  · intro hd
    subst hd
    rcases hs1 : eval_scope_action true (strict0 || body.strict) st with ⟨a, st1⟩
    have ha : a = .truncate st.length ∧ st1.length = st.length := by
      rw [eval_scope_action] at hs1
      simp only [if_true] at hs1
      cases hst : !(strict0 || body.strict) with
      | true =>
        rw [hst] at hs1
        simp only [if_true] at hs1
        injection hs1 with ha hst1
        subst hst1
        constructor
        · rw [← ha, poison_until_last_function_length]
        · rw [poison_until_last_function_length]
      | false =>
        rw [hst] at hs1
        simp only [Bool.false_eq_true, if_false] at hs1
        injection hs1 with ha hst1
        subst hst1
        exact ⟨ha.symm, rfl⟩
    rw [ha.1]
    simp [restore_environment, truncate_environments]
  · intro hd
    subst hd
    simp [eval_scope_action, pop_to_global, restore_environment,
      truncate_environments, extend_environments]

/-- A concrete empty, non-strict eval body, used in witness instances. -/
def witness_eval_body : EvalBody :=
  { strict := false
    contains_new_target := false
    contains_super_property := false
    contains_super_call := false
    contains_arguments := false
    top_level_var_declared_names := [] }

/-- A concrete eval host whose interpreter pushes a leftover environment and
fails, used to exhibit restoration on the failure path in witness
instances. -/
def witness_eval_host : EvalHost :=
  { ensure_can_compile_strings := .ok ()
    parse := fun _ _ => .ok witness_eval_body
    func_info := fun _ => { is_derived_constructor := false
                            has_class_field_initializer := false
                            has_home_object := false }
    resolve := fun _ => "x"
    execute := fun st =>
      (.error { kind := .typ, message := "boom" }, st ++ [Environment.object 3]) }

theorem claim_c1_witness :
    perform_eval witness_eval_host (JsValue.string "1") true false
      [Environment.declarative witness_global_env] =
      (.error { kind := .typ, message := "boom" },
       [Environment.declarative { witness_global_env with poisoned := true }],
       [.compiled, .executed]) ∧
    perform_eval witness_eval_host (JsValue.string "1") false false
      [Environment.declarative witness_global_env, Environment.object 7] =
      (.error { kind := .typ, message := "boom" },
       [Environment.declarative witness_global_env, Environment.object 7],
       [.compiled, .executed]) :=
  ⟨((claim_c1_eval_stack_restored witness_eval_host (JsValue.string "1") true false
      [Environment.declarative witness_global_env] "1" witness_eval_body
      rfl rfl rfl rfl rfl rfl rfl (fun _ => rfl)).1).trans rfl,
   ((claim_c1_eval_stack_restored witness_eval_host (JsValue.string "1") false false
      [Environment.declarative witness_global_env, Environment.object 7] "1"
      witness_eval_body rfl rfl rfl rfl rfl rfl rfl (fun _ => rfl)).1).trans rfl⟩

/-- Claim C2: for a scripted derived-class constructor (ordinary function,
constructor kind not Base, hence no pre-allocated `this`), for every value v
produced by the interpreter run inside `construct_internal`: an object v is
returned exactly; a v that is neither object nor undefined yields a
`TypeError` "derived constructor can only return an Object or undefined";
and an undefined v yields the `this` binding stored in the callee's function
environment slots, or a `ReferenceError` when that binding is still
uninitialized (`super()` never ran). -/
theorem claim_c2_derived_constructor_return (code : CodeBlock)
    (captured : List Environment) (self_fn new_target : Nat)
    (o : ConstructOracle) (v : JsValue) (stA : List Environment)
    (d : DeclarativeEnvironment) (fs : FunctionSlots)
    (hrun : o.run (construct_prologue code captured self_fn new_target none
      o.arguments_object) = (.ok v, stA))
    (henv : construct_recover_environment code captured.length stA =
      some (.declarative d))
    (hslots : d.slots = some (.function fs)) :
    (∀ ob, v = .object ob →
      construct_internal_ordinary code .derived captured self_fn new_target o =
        .ok v) ∧
    (v.as_object = none → v.is_undefined = false →
      construct_internal_ordinary code .derived captured self_fn new_target o =
        .error { kind := .typ
                 message := "derived constructor can only return an Object or undefined" }) ∧
    (v = .undefined → fs.this_binding_status = .uninitialized →
      construct_internal_ordinary code .derived captured self_fn new_target o =
        .error { kind := .ref
                 message := "Must call super constructor in derived class before accessing 'this' or returning from derived constructor" }) ∧
    (v = .undefined → fs.this_binding_status ≠ .uninitialized →
      ∀ tb, fs.this = .object tb →
        construct_internal_ordinary code .derived captured self_fn new_target o =
          .ok fs.this) := by
  have hmain : construct_internal_ordinary code .derived captured self_fn new_target o =
      construct_result none (.ok v) (some (.declarative d)) := by
    simp only [construct_internal_ordinary, ConstructorKind.is_base, Bool.false_eq_true,
      if_false, hrun, henv]
  refine ⟨?_, ?_, ?_, ?_⟩
  · intro ob hv
    subst hv
    rw [hmain]
    simp [construct_result, JsValue.as_object]
  · intro hobj hundef
    rw [hmain]
    simp [construct_result, hobj, hundef, hslots]
  · intro hv hstat
    subst hv
    rw [hmain]
    simp [construct_result, JsValue.as_object, JsValue.is_undefined, hslots,
      FunctionSlots.get_this_binding, hstat]
  · intro hv hstat tb htb
    subst hv
    rw [hmain]
    simp [construct_result, JsValue.as_object, JsValue.is_undefined, hslots,
      FunctionSlots.get_this_binding, hstat, htb]

/-- A concrete derived-constructor `CodeBlock`, used in witness instances. -/
def witness_derived_code : CodeBlock :=
  { name := 0
    has_binding_identifier := false
    length := 0
    strict := false
    this_mode := .global
    params_count := 0
    params_is_simple := true
    num_bindings := 0
    arguments_binding := none
    compile_environments := [witness_fn_cte]
    is_class_constructor := false
    parameters_env_bindings := none }

/-- The function environment pushed by `construct_prologue` for
`witness_derived_code` on the global stack (uninitialized `this`). -/
def witness_derived_fn_env : DeclarativeEnvironment :=
  { bindings := []
    compile := witness_fn_cte
    poisoned := false
    with_flag := false
    slots := some (.function
      { this := JsValue.null
        this_binding_status := .uninitialized
        function_object := 3
        new_target := some 4 }) }

/-- A function environment whose `this` was initialized to object `8` by a
`super()` call, used in witness instances. -/
def witness_initialized_fn_env : DeclarativeEnvironment :=
  { bindings := []
    compile := witness_fn_cte
    poisoned := false
    with_flag := false
    slots := some (.function
      { this := JsValue.object 8
        this_binding_status := .initialized
        function_object := 3
        new_target := some 4 }) }

/-- A construct oracle whose interpreter returns the given value and leaves
the callee stack unchanged, used in witness instances. -/
def witness_construct_oracle (v : JsValue) : ConstructOracle :=
  { alloc_this := .ok 0
    arguments_object := .undefined
    run := fun st => (.ok v, st) }

/-- A construct oracle whose interpreter returns `undefined` on a stack whose
function environment has an initialized `this`, used in witness instances. -/
def witness_construct_oracle_super : ConstructOracle :=
  { alloc_this := .ok 0
    arguments_object := .undefined
    run := fun _ => (.ok .undefined,
      [Environment.declarative witness_global_env,
       Environment.declarative witness_initialized_fn_env]) }

theorem claim_c2_witness :
    construct_internal_ordinary witness_derived_code .derived
      [Environment.declarative witness_global_env] 3 4
      (witness_construct_oracle (.object 42)) = .ok (.object 42) ∧
    construct_internal_ordinary witness_derived_code .derived
      [Environment.declarative witness_global_env] 3 4
      (witness_construct_oracle (.integer 1)) =
      .error { kind := .typ
               message := "derived constructor can only return an Object or undefined" } ∧
    construct_internal_ordinary witness_derived_code .derived
      [Environment.declarative witness_global_env] 3 4
      (witness_construct_oracle .undefined) =
      .error { kind := .ref
               message := "Must call super constructor in derived class before accessing 'this' or returning from derived constructor" } ∧
    construct_internal_ordinary witness_derived_code .derived
      [Environment.declarative witness_global_env] 3 4
      witness_construct_oracle_super = .ok (.object 8) :=
  ⟨(claim_c2_derived_constructor_return witness_derived_code
      [Environment.declarative witness_global_env] 3 4
      (witness_construct_oracle (.object 42)) (.object 42)
      (construct_prologue witness_derived_code
        [Environment.declarative witness_global_env] 3 4 none .undefined)
      witness_derived_fn_env
      { this := JsValue.null
        this_binding_status := .uninitialized
        function_object := 3
        new_target := some 4 }
      rfl rfl rfl).1 42 rfl,
   (claim_c2_derived_constructor_return witness_derived_code
      [Environment.declarative witness_global_env] 3 4
      (witness_construct_oracle (.integer 1)) (.integer 1)
      (construct_prologue witness_derived_code
        [Environment.declarative witness_global_env] 3 4 none .undefined)
      witness_derived_fn_env
      { this := JsValue.null
        this_binding_status := .uninitialized
        function_object := 3
        new_target := some 4 }
      rfl rfl rfl).2.1 rfl rfl,
   (claim_c2_derived_constructor_return witness_derived_code
      [Environment.declarative witness_global_env] 3 4
      (witness_construct_oracle .undefined) .undefined
      (construct_prologue witness_derived_code
        [Environment.declarative witness_global_env] 3 4 none .undefined)
      witness_derived_fn_env
      { this := JsValue.null
        this_binding_status := .uninitialized
        function_object := 3
        new_target := some 4 }
      rfl rfl rfl).2.2.1 rfl rfl,
   (claim_c2_derived_constructor_return witness_derived_code
      [Environment.declarative witness_global_env] 3 4
      witness_construct_oracle_super .undefined
      [Environment.declarative witness_global_env,
       Environment.declarative witness_initialized_fn_env]
      witness_initialized_fn_env
      { this := JsValue.object 8
        this_binding_status := .initialized
        function_object := 3
        new_target := some 4 }
      rfl rfl rfl).2.2.2 rfl (by decide) 8 rfl⟩
